import Mathlib

/-!
Verification of the pyqsp command-line dispatch (`src/pyqsp/main.py`) and of
the spec-described Phase-Angle Synthesis Engine it invokes.

The repository source contains only `pyqsp/main.py` (the `CommandLine`
function); the engine modules it imports (`angle_sequence`, `response`,
`pyqsp.poly`, `ham_sim`, `pyqsp.phases`) are not part of the source tree.
Accordingly:

* `CommandLine` is embedded faithfully from `src/pyqsp/main.py` as a pure
  function from parsed arguments and an abstract engine (supplying the
  imported functions) to a trace of external calls / prints plus a Python
  result (normal return value, `sys.exit`, or raised exception).
* The engine-side operations (angle solver, response simulator, bounded
  inversion builder, named generators) are modelled from the spec, each with
  a doc comment starting `Modelled from the spec:`.

Python floats are modelled as `ℚ` (only pass-through of numeric values
matters for the claims about `CommandLine`).
-/

namespace Pyqsp

/-- A QSP phase sequence as handled by `CommandLine`: an ordered list of
real phase angles (modelled as rationals). -/
abbrev PhiSet := List ℚ

/-- The parsed command-line arguments of `CommandLine`
(`parser.add_argument` calls, `src/pyqsp/main.py` lines 56-74), with each
option's value after parsing.  `--poly` and `--seqargs` are comma-separated
float lists and are `None` when not supplied, hence `Option (List ℚ)`;
`--seqname` defaults to `None`, hence `Option String`. -/
structure Args where
  cmd : String
  output : String := ""
  model : String := "Wx"
  plot : Bool := false
  hide_plot : Bool := false
  return_angles : Bool := false
  poly : Option (List ℚ) := none
  tau : ℚ := 100
  kappa : ℚ := 3
  degree : Int := 3
  epsilon : ℚ := 3/10
  seqname : Option String := none
  seqargs : Option (List ℚ) := none
  align_first_point_phase : Bool := false
  plot_magnitude : Bool := false
  plot_positive_only : Bool := false
  plot_npts : Int := 100
  niter : Int := 2

/-- Python truthiness of an optional list (`if not coefs`,
`if not args.seqargs`): falsy when absent (`None`) or empty. -/
def falsyList (v : Option (List ℚ)) : Bool :=
  match v with
  | none => true
  | some l => l.isEmpty

/-- Python truthiness of an optional string (`if not args.seqname`):
falsy when absent (`None`) or empty. -/
def falsyStr (v : Option String) : Bool :=
  match v with
  | none => true
  | some s => s.isEmpty

/-- The engine functions `CommandLine` imports from modules outside the
source tree.  Calls that may raise in Python (`QuantumSignalProcessingPhases`
may raise on convergence failure, `pg.generate` on bad arguments) return
`Except`; the rest are total.  `phase_generators` is the registry's key set
and `mkGenerator` stands for `phase_generators[name]()` followed by the
generator's `help`/`generate` methods. -/
structure Engine where
  QuantumSignalProcessingPhases :
    List ℚ → Option String → Option Int → Except String PhiSet
  ham_sim : ℚ → ℚ → ℚ → PhiSet × ℚ
  PolyOneOverX : ℚ → ℚ → List ℚ
  PolyErf : Int → ℚ → List ℚ
  phase_generators : List String
  gen_help : String → String
  generate : String → List ℚ → Except String PhiSet

/-- One observable external action of `CommandLine`: a `print` call (one
constructor per call site, carrying the interpolated data) or a call into an
imported engine function, carrying exactly the arguments the source passes.
In `qspCall`, `model = none` / `max_nretries = none` mean the keyword
argument is omitted at the call site (solver default applies). -/
inductive Event where
  | printMustSpecifyPoly
  | printPolyCoefs (coefs : List ℚ)
  | printPcoefs (coefs : List ℚ)
  | printKnownGenerators (keys : List String)
  | printGenHelp (h : String)
  | printPhiset (phiset : PhiSet)
  | printHelpText
  | qspCall (coefs : List ℚ) (model : Option String) (max_nretries : Option Int)
  | hamsimCall (tau lo hi : ℚ)
  | polyOneOverXCall (kappa epsilon : ℚ)
  | polyErfCall (degree : Int) (kappa : ℚ)
  | generateCall (name : String) (args : List ℚ)
  | plotCall (phiset : PhiSet) (pcoefs : Option (List ℚ)) (model : String)
      (npts : Int) (show_plot : Bool)
  deriving DecidableEq, Repr

/-- How the body of `CommandLine` (lines 81-147) finishes, before the final
`return` logic of lines 149-150: it falls through to line 149 with the
current value of the `phiset` variable, executes a plain `return` (the two
early returns in the `angles` branch, which return `None`), terminates the
process via `sys.exit`, or propagates a raised exception. -/
inductive BodyExit where
  | fall (phiset : Option PhiSet)
  | early
  | exited (code : Int)
  | raised (err : String)
  deriving DecidableEq, Repr

/-- The value `CommandLine` delivers to the Python caller: a normal return
(`none` models Python's `None`), process termination via `sys.exit`, or a
raised exception. -/
inductive PyResult where
  | ret (v : Option PhiSet)
  | exited (code : Int)
  | raised (err : String)
  deriving DecidableEq, Repr

/-- The dispatch body of `CommandLine` (`src/pyqsp/main.py` lines 79-147),
as a trace of events plus a `BodyExit`.

Branch-by-branch correspondence with the source:
* `poly2angles` (81-95): on falsy `--poly` prints and calls `sys.exit(0)`;
  otherwise prints the coefficients and calls
  `QuantumSignalProcessingPhases(coefs, model=args.model)` — `max_nretries`
  omitted — then plots with `model=args.model` when `--plot` is set.
  (The `type(coefs)==str` re-parse at lines 86-87 is the identity in this
  typed model, where `--poly` has already been parsed to a float list.)
* `hamsim` (97-104): `ham_sim(args.tau, 1.0e-4, 1 - 1.0e-4)`, plot with
  hardcoded `model="Wz"` and no `pcoefs`.
* `invert` (106-114): `PolyOneOverX(kappa, epsilon)` then
  `QuantumSignalProcessingPhases(pcoefs, max_nretries=args.niter)` — the
  `model` keyword omitted — and plot with hardcoded `model="Wx"`.
* `poly_erf` (116-125): `PolyErf(degree, kappa)`, print, then
  `QuantumSignalProcessingPhases(pcoefs, max_nretries=args.niter)` —
  `model` omitted — and plot with hardcoded `model="Wx"`.
* `angles` (127-142): unknown/falsy `--seqname` prints the registry keys
  and returns; falsy `--seqargs` prints the generator's help and returns;
  otherwise `pg.generate(*args.seqargs)`, print, plot with hardcoded
  `model="Wx"`.
* fallback (145-147): the f-string references the undefined name `cmd`
  (the parsed value lives in `args.cmd`), so evaluating it raises
  `NameError` before anything is printed; the help text is unreachable. -/
def CommandLineBody (args : Args) (eng : Engine) : List Event × BodyExit :=
  if args.cmd = "poly2angles" then
    match args.poly with
    | none => ([Event.printMustSpecifyPoly], BodyExit.exited 0)
    | some coefs =>
      if coefs.isEmpty then
        ([Event.printMustSpecifyPoly], BodyExit.exited 0)
      else
        match eng.QuantumSignalProcessingPhases coefs (some args.model) none with
        | Except.error e =>
          ([Event.printPolyCoefs coefs,
            Event.qspCall coefs (some args.model) none], BodyExit.raised e)
        | Except.ok phiset =>
          ([Event.printPolyCoefs coefs,
            Event.qspCall coefs (some args.model) none] ++
            (if args.plot then
              [Event.plotCall phiset (some coefs) args.model args.plot_npts
                (!args.hide_plot)]
            else []),
           BodyExit.fall (some phiset))
  else if args.cmd = "hamsim" then
    let r := eng.ham_sim args.tau (1/10000) (1 - 1/10000)
    ([Event.hamsimCall args.tau (1/10000) (1 - 1/10000)] ++
      (if args.plot then
        [Event.plotCall r.1 none "Wz" args.plot_npts (!args.hide_plot)]
      else []),
     BodyExit.fall (some r.1))
  else if args.cmd = "invert" then
    let pcoefs := eng.PolyOneOverX args.kappa args.epsilon
    match eng.QuantumSignalProcessingPhases pcoefs none (some args.niter) with
    | Except.error e =>
      ([Event.polyOneOverXCall args.kappa args.epsilon,
        Event.qspCall pcoefs none (some args.niter)], BodyExit.raised e)
    | Except.ok phiset =>
      ([Event.polyOneOverXCall args.kappa args.epsilon,
        Event.qspCall pcoefs none (some args.niter)] ++
        (if args.plot then
          [Event.plotCall phiset (some pcoefs) "Wx" args.plot_npts
            (!args.hide_plot)]
        else []),
       BodyExit.fall (some phiset))
  else if args.cmd = "poly_erf" then
    let pcoefs := eng.PolyErf args.degree args.kappa
    match eng.QuantumSignalProcessingPhases pcoefs none (some args.niter) with
    | Except.error e =>
      ([Event.polyErfCall args.degree args.kappa, Event.printPcoefs pcoefs,
        Event.qspCall pcoefs none (some args.niter)], BodyExit.raised e)
    | Except.ok phiset =>
      ([Event.polyErfCall args.degree args.kappa, Event.printPcoefs pcoefs,
        Event.qspCall pcoefs none (some args.niter)] ++
        (if args.plot then
          [Event.plotCall phiset (some pcoefs) "Wx" args.plot_npts
            (!args.hide_plot)]
        else []),
       BodyExit.fall (some phiset))
  else if args.cmd = "angles" then
    if falsyStr args.seqname ||
        !(eng.phase_generators.contains (args.seqname.getD "")) then
      ([Event.printKnownGenerators eng.phase_generators], BodyExit.early)
    else
      let name := args.seqname.getD ""
      if falsyList args.seqargs then
        ([Event.printGenHelp (eng.gen_help name)], BodyExit.early)
      else
        let sargs := args.seqargs.getD []
        match eng.generate name sargs with
        | Except.error e =>
          ([Event.generateCall name sargs], BodyExit.raised e)
        | Except.ok phiset =>
          ([Event.generateCall name sargs, Event.printPhiset phiset] ++
            (if args.plot then
              [Event.plotCall phiset none "Wx" args.plot_npts
                (!args.hide_plot)]
            else []),
           BodyExit.fall (some phiset))
  else
    ([], BodyExit.raised "NameError")

/-- `CommandLine` (`src/pyqsp/main.py` lines 20-150): runs the dispatch body
and then applies the final-return logic of lines 149-150 —
`if (phiset is not None) and args.return_angles: return phiset`, falling off
the end (returning `None`) otherwise.  The early `return` statements in the
`angles` branch return `None` directly. -/
def CommandLine (args : Args) (eng : Engine) : List Event × PyResult :=
  let r := CommandLineBody args eng
  (r.1,
   match r.2 with
   | BodyExit.fall phiset =>
     if phiset.isSome && args.return_angles then PyResult.ret phiset
     else PyResult.ret none
   | BodyExit.early => PyResult.ret none
   | BodyExit.exited c => PyResult.exited c
   | BodyExit.raised e => PyResult.raised e)

/-! ## Spec-modelled engine (modules imported by `main.py` but absent from
the source tree): polynomial evaluation, the bounded inversion builder, the
angle-solver acceptance loop, degree-down solving, and named generators. -/

/-- Evaluation of a polynomial given by its coefficient list
`[c0, c1, ..., cd]` (constant term first, as `--poly` documents:
"const, a, a^2, ...") at a point, via Horner's rule. -/
def evalPoly (p : List ℚ) (a : ℚ) : ℚ :=
  p.foldr (fun c acc => c + a * acc) 0

/-- Maximum of `|evalPoly p a|` over a list of sample points (0 when the
list is empty). -/
def sampleMax (samples : List ℚ) (p : List ℚ) : ℚ :=
  samples.foldr (fun a m => max |evalPoly p a| m) 0

/-- Modelled from the spec: the boundedness guarantee of the inversion
approximation (`PolyOneOverX` with `ensure_bounded=True`, absent from the
source tree).  Spec §4.1: "The construction must guarantee the resulting
polynomial's magnitude never exceeds 1 on [-1,1] (rescaling/clipping as
needed)".  Given the raw approximation's coefficients, rescale them by the
maximal sampled magnitude whenever that maximum exceeds 1. -/
def ensureBounded (samples : List ℚ) (p : List ℚ) : List ℚ :=
  let m := sampleMax samples p
  if m ≤ 1 then p else p.map (fun c => c / m)

/-- Modelled from the spec: the inversion approximation builder
(`PolyOneOverX`, spec §4.1, absent from the source tree).  The raw
truncated approximation of `1/a` for parameters `(kappa, epsilon)` is
abstracted as `rawApprox`; the builder applies the spec-mandated
boundedness rescaling to its coefficients, sampled on `samples`. -/
def PolyOneOverXModel (rawApprox : ℚ → ℚ → List ℚ) (samples : List ℚ)
    (kappa epsilon : ℚ) : List ℚ :=
  ensureBounded samples (rawApprox kappa epsilon)

/-- Squared distance between two complex numbers represented as
(real, imaginary) pairs of rationals. -/
def dist2 (x y : ℚ × ℚ) : ℚ :=
  (x.1 - y.1) ^ 2 + (x.2 - y.2) ^ 2

/-- Modelled from the spec: the angle solver's acceptance check
(spec §4.2/§7, solver absent from the source tree) — the response curve of
a candidate phase sequence, produced by the response simulator `evalR`,
must lie within the tolerance `tol` of the target polynomial's (real)
value at every sampled point.  Distances are compared squared to stay in
`ℚ`. -/
def residualOk (evalR : PhiSet → ℚ → ℚ × ℚ) (p : List ℚ) (tol : ℚ)
    (samples : List ℚ) (phis : PhiSet) : Bool :=
  samples.all (fun a => decide (dist2 (evalR phis a) (evalPoly p a, 0) ≤ tol ^ 2))

/-- Modelled from the spec: the angle solver's bounded retry loop
(spec §4.2/§5/§7, solver absent from the source tree).  Each attempt `k`
runs the degree-down numerical procedure (abstracted as `attempt`, which
may itself fail on an out-of-range trigonometric argument, hence
`Option`); a candidate sequence is accepted only when the acceptance check
`chk` passes, otherwise the solver retries; the budget `n` exhausted, it
reports failure (`none`, standing for `ConvergenceError`) — spec §7: "a
sequence is either fully validated (within tolerance) or not returned at
all". -/
def solveLoop (chk : PhiSet → Bool) (attempt : Nat → Option PhiSet) :
    Nat → Nat → Option PhiSet
  | _, 0 => none
  | k, n + 1 =>
    match attempt k with
    | some phis => if chk phis then some phis else solveLoop chk attempt (k + 1) n
    | none => solveLoop chk attempt (k + 1) n

/-- Modelled from the spec: `AngleSolver.solve(polynomial, model,
max_retries)` (spec §4.2, absent from the source tree).  The per-attempt
degree-down recurrence and the response simulator's matrix algebra are
abstracted as the parameters `attempt` and `evalR` (spec §9 notes the exact
recurrence "is not visible in the excerpted material" and that "the
residual-tolerance/retry contract above is the binding specification");
the binding acceptance contract is explicit: a phase sequence is returned
only after `residualOk` validates it on the dense sample set. -/
def solve (evalR : PhiSet → ℚ → ℚ × ℚ) (attempt : Nat → Option PhiSet)
    (p : List ℚ) (tol : ℚ) (samples : List ℚ) (maxRetries : Nat) :
    Option PhiSet :=
  solveLoop (residualOk evalR p tol samples) attempt 0 maxRetries

/-- Modelled from the spec: one pass of degree-down solving with explicit
fuel (spec §4.2 and glossary, solver absent from the source tree).  At each
stage the solver fixes one phase angle from the remaining coefficients
(`step`), "unwinds" one circuit layer into a reduced-degree residual
polynomial (`reduceStep`), "and recurses until degree 0, yielding the full
angle sequence"; a degree-0 polynomial (one coefficient) yields the final
angle.  `step` and `reduceStep` abstract the numerical recurrence, which
spec §9 leaves to the literature. -/
def degreeDownAux (step : List ℚ → ℚ) (reduceStep : List ℚ → List ℚ) :
    Nat → List ℚ → List ℚ
  | 0, _ => []
  | _ + 1, [] => []
  | _ + 1, [c] => [step [c]]
  | n + 1, c₀ :: c₁ :: rest =>
    step (c₀ :: c₁ :: rest) ::
      degreeDownAux step reduceStep n (reduceStep (c₀ :: c₁ :: rest))

/-- Modelled from the spec: a full degree-down solving pass over a
coefficient list (degree `d` = length − 1), producing one phase angle per
layer. -/
def degreeDownSolve (step : List ℚ → ℚ) (reduceStep : List ℚ → List ℚ)
    (coeffs : List ℚ) : List ℚ :=
  degreeDownAux step reduceStep coeffs.length coeffs

/-- Modelled from the spec: one named closed-form phase-sequence generator
(spec §4.4, `pyqsp.phases` absent from the source tree): a required
argument arity, a help string, and the closed-form construction itself. -/
structure PhaseGenerator where
  arity : Nat
  helpText : String
  formula : List ℚ → PhiSet

/-- Modelled from the spec: `generate(*args)` of a named generator
(spec §4.4/§7, absent from the source tree): "the generator itself must
validate argument arity and fail with `ArgumentError` on mismatch",
producing no partial result. -/
def generateChecked (g : PhaseGenerator) (args : List ℚ) :
    Except String PhiSet :=
  if args.length = g.arity then Except.ok (g.formula args)
  else Except.error "ArgumentError"

/-! ## Trace observations and concrete instances used in the theorems. -/

/-- The `model` keyword arguments of the angle-solver calls in a trace, in
order (`none` = the keyword was omitted at the call site). -/
def qspModels (evs : List Event) : List (Option String) :=
  evs.filterMap (fun e =>
    match e with
    | Event.qspCall _ m _ => some m
    | _ => none)

/-- The `max_nretries` keyword arguments of the angle-solver calls in a
trace, in order (`none` = the keyword was omitted at the call site). -/
def qspRetries (evs : List Event) : List (Option Int) :=
  evs.filterMap (fun e =>
    match e with
    | Event.qspCall _ _ r => some r
    | _ => none)

/-- The `model` arguments of the response-plot calls in a trace, in
order. -/
def plotModels (evs : List Event) : List String :=
  evs.filterMap (fun e =>
    match e with
    | Event.plotCall _ _ m _ _ => some m
    | _ => none)

/-- The formalization of claim C2's property at one event: an angle-solver
call or response-simulator call carries exactly the model tag the
invocation layer selected via `--model`. -/
def modelTagOk (selected : String) : Event → Bool
  | Event.qspCall _ m _ => m = some selected
  | Event.plotCall _ _ m _ _ => m = selected
  | _ => true

/-- The formalization of claim C2 for one invocation: every solver and
simulator call in the trace carries the `--model` tag. -/
def modelTagsRespected (args : Args) (eng : Engine) : Bool :=
  (CommandLine args eng).1.all (modelTagOk args.model)

/-- The formalization of claim C3 for one invocation: every angle-solver
call in the trace receives `--niter` as its `max_nretries` parameter. -/
def retriesRespected (args : Args) (eng : Engine) : Bool :=
  (qspRetries (CommandLine args eng).1).all (fun r => r = some args.niter)

/-- A concrete engine instance used to exercise `CommandLine` at concrete
inputs: the solver echoes the coefficients as phases, the generators accept
any arguments. -/
def testEngine : Engine where
  QuantumSignalProcessingPhases := fun coefs _ _ => Except.ok coefs
  ham_sim := fun tau _ _ => ([tau], 0)
  PolyOneOverX := fun _ _ => [0, 1]
  PolyErf := fun _ kappa => [kappa]
  phase_generators := ["fpsearch", "erf_step"]
  gen_help := fun n => n
  generate := fun _ xs => Except.ok xs

/-- `pyqsp --model=Wz --plot invert`: the invocation of claim C2's
counterexample. -/
def invertWzArgs : Args :=
  { cmd := "invert", model := "Wz", plot := true }

/-- `pyqsp --poly=-1,0,2 --niter=7 poly2angles`: the invocation of claim
C3's counterexample. -/
def polyNiterArgs : Args :=
  { cmd := "poly2angles", poly := some [-1, 0, 2], niter := 7 }

/-- The condition of claim C4: the supplied sequence name (when any was
supplied) is not a key of the generator registry. -/
def seqnameUnknown (args : Args) (eng : Engine) : Prop :=
  ∀ s, args.seqname = some s → eng.phase_generators.contains s = false

/-- `pyqsp --poly=-1,0,2 --plot poly2angles`: a `poly2angles` invocation
used to instantiate the per-command model-tag theorem. -/
def c2PolyArgs : Args :=
  { cmd := "poly2angles", poly := some [-1, 0, 2], plot := true }

/-- `pyqsp --plot hamsim`: a `hamsim` invocation used to instantiate the
per-command model-tag theorem. -/
def c2HamsimArgs : Args :=
  { cmd := "hamsim", plot := true }

/-- `pyqsp --plot invert`: an `invert` invocation used to instantiate the
per-command model-tag theorem. -/
def c2InvertArgs : Args :=
  { cmd := "invert", plot := true }

/-- `pyqsp --seqname fpsearch --seqargs=10,0.5 --plot angles`: an `angles`
invocation used to instantiate the per-command model-tag theorem. -/
def c2AnglesArgs : Args :=
  { cmd := "angles", seqname := some "fpsearch", seqargs := some [10, 1/2],
    plot := true }

/-- `pyqsp --niter=5 invert`: an `invert` invocation used to instantiate
the retry-budget theorem. -/
def c3InvertArgs : Args :=
  { cmd := "invert", niter := 5 }

/-- `pyqsp --poly=-1,0,2 --niter=5 poly2angles`: a `poly2angles` invocation
used to instantiate the retry-budget theorem. -/
def c3PolyArgs : Args :=
  { cmd := "poly2angles", poly := some [-1, 0, 2], niter := 5 }

/-- `pyqsp --seqname fpsearch angles` (no `--seqargs`): the `angles`
invocation used to instantiate claim C4. -/
def anglesHelpArgs : Args :=
  { cmd := "angles", seqname := some "fpsearch" }

/-- A ground response simulator used to instantiate the round-trip
theorem: the response at `a` is `a` itself (real part). -/
def evalRLinear : PhiSet → ℚ → ℚ × ℚ := fun _ a => (a, 0)

/-- A ground per-attempt solver used to instantiate the round-trip
theorem: every attempt proposes the single phase `[0]`. -/
def attemptZero : Nat → Option PhiSet := fun _ => some [0]

/-- A ground raw inversion approximation used to instantiate the
boundedness theorem: its magnitude reaches 5 on the samples, so the
builder must rescale it. -/
def rawFive : ℚ → ℚ → List ℚ := fun _ _ => [0, 5]

/-- A ground named generator of arity 2 used to instantiate the arity
theorem. -/
def genTwo : PhaseGenerator :=
  { arity := 2, helpText := "length,delta", formula := fun xs => xs }

/-- `pyqsp poly_sign`: the invocation of claim C8's fallback branch — a
command the built-in help text advertises but the dispatch does not
handle. -/
def polySignArgs : Args :=
  { cmd := "poly_sign" }

/-- `pyqsp poly2angles` with no `--poly`: the invocation of claim C9. -/
def polyMissingArgs : Args :=
  { cmd := "poly2angles" }

/-- `pyqsp --poly=-1,0,2 --return-angles poly2angles`: a successful solve
with the return flag set, used to instantiate claim C10. -/
def returnAnglesArgs : Args :=
  { cmd := "poly2angles", poly := some [-1, 0, 2], return_angles := true }

/-! ## Theorems -/

/-- The trace of `CommandLine` is the trace of its dispatch body: the
final-return logic of lines 149-150 prints nothing and calls nothing. -/
lemma commandLine_fst (args : Args) (eng : Engine) :
    (CommandLine args eng).1 = (CommandLineBody args eng).1 := rfl

/-- Evaluating the empty coefficient list gives 0. -/
lemma evalPoly_nil (a : ℚ) : evalPoly [] a = 0 := rfl

/-- One step of Horner evaluation. -/
lemma evalPoly_cons (c : ℚ) (p : List ℚ) (a : ℚ) :
    evalPoly (c :: p) a = c + a * evalPoly p a := rfl

/-- One step of the sampled-maximum fold. -/
lemma sampleMax_cons (b : ℚ) (s : List ℚ) (p : List ℚ) :
    sampleMax (b :: s) p = max |evalPoly p b| (sampleMax s p) := rfl

/-- The sampled maximum bounds the magnitude at every sample point. -/
lemma abs_evalPoly_le_sampleMax (samples : List ℚ) (p : List ℚ) (a : ℚ)
    (ha : a ∈ samples) : |evalPoly p a| ≤ sampleMax samples p := by
  induction samples with
  | nil => cases ha
  | cons b s ih =>
    rcases List.mem_cons.mp ha with rfl | hmem
    · rw [sampleMax_cons]
      exact le_max_left _ _
    · rw [sampleMax_cons]
      exact le_trans (ih hmem) (le_max_right _ _)

/-- Rescaling the coefficients rescales the evaluation. -/
lemma evalPoly_map_div (p : List ℚ) (m a : ℚ) :
    evalPoly (p.map (fun c => c / m)) a = evalPoly p a / m := by
  induction p with
  | nil => simp [evalPoly_nil]
  | cons c p ih =>
    rw [List.map_cons, evalPoly_cons, evalPoly_cons, ih, add_div,
      mul_div_assoc]

/-- The retry loop only ever returns a candidate that passed the
acceptance check. -/
lemma solveLoop_sound (chk : PhiSet → Bool) (attempt : Nat → Option PhiSet) :
    ∀ n k phis, solveLoop chk attempt k n = some phis → chk phis = true := by
  intro n
  induction n with
  | zero =>
    intro k phis h
    simp [solveLoop] at h
  | succ m ih =>
    intro k phis h
    rw [solveLoop] at h
    split at h
    next cand heq =>
      split at h
      next hc =>
        injection h with h
        rw [← h]
        exact hc
      next hc => exact ih (k + 1) phis h
    next heq => exact ih (k + 1) phis h

/-- Claim C1: for every polynomial for which the angle solver produces a
phase sequence, evaluating that sequence with the response simulator
reproduces the polynomial's values within the declared tolerance at every
point of the dense sample set (distances compared squared). -/
theorem c1_solver_roundtrip (evalR : PhiSet → ℚ → ℚ × ℚ)
    (attempt : Nat → Option PhiSet) (p : List ℚ) (tol : ℚ)
    (samples : List ℚ) (maxRetries : Nat) (phis : PhiSet)
    (h : solve evalR attempt p tol samples maxRetries = some phis) :
    ∀ a ∈ samples, dist2 (evalR phis a) (evalPoly p a, 0) ≤ tol ^ 2 := by
  intro a ha
  have hchk : residualOk evalR p tol samples phis = true :=
    solveLoop_sound (residualOk evalR p tol samples) attempt maxRetries 0 phis h
  have hall := List.all_eq_true.mp hchk a ha
  exact of_decide_eq_true hall

/-- Witness for C1: a concrete solve that succeeds, whose returned phase
sequence satisfies the round-trip bound at the sample point 1/2. -/
theorem c1_solver_roundtrip_witness :
    solve evalRLinear attemptZero [0, 1] 0 [0, 1/2, 1] 1 = some [0] ∧
      dist2 (evalRLinear [0] (1/2)) (evalPoly [0, 1] (1/2), 0) ≤ 0 ^ 2 :=
  ⟨by norm_num [solve, solveLoop, attemptZero, residualOk, evalRLinear, dist2,
     evalPoly],
   c1_solver_roundtrip evalRLinear attemptZero [0, 1] 0 [0, 1/2, 1] 1 [0]
     (by norm_num [solve, solveLoop, attemptZero, residualOk, evalRLinear,
       dist2, evalPoly])
     (1/2) (by norm_num)⟩

/-- Claim C2, counterexample: `pyqsp --model=Wz --plot invert` selects the
tag Wz, yet the trace shows the solver called with the `model` keyword
omitted and the simulator called with the hardcoded tag Wx — the claim's
property `modelTagsRespected` fails at this input. -/
theorem c2_counterexample :
    invertWzArgs.model = "Wz" ∧
      qspModels (CommandLine invertWzArgs testEngine).1 = [none] ∧
      plotModels (CommandLine invertWzArgs testEngine).1 = ["Wx"] ∧
      modelTagsRespected invertWzArgs testEngine = false := by
  decide

/-- Claim C2 as amended: only `poly2angles` passes the `--model` tag to the
angle solver and the response simulator; `hamsim` plots with the hardcoded
tag Wz; `invert` and `poly_erf` invoke the solver with the model argument
omitted (solver default) and plot with the hardcoded tag Wx; `angles`
plots with the hardcoded tag Wx and never invokes the solver. -/
theorem c2_model_tags (args : Args) (eng : Engine) :
    (args.cmd = "poly2angles" →
      (qspModels (CommandLine args eng).1).all
          (fun m => m = some args.model) = true ∧
      (plotModels (CommandLine args eng).1).all
          (fun m => m = args.model) = true) ∧
    (args.cmd = "hamsim" →
      qspModels (CommandLine args eng).1 = [] ∧
      (plotModels (CommandLine args eng).1).all (fun m => m = "Wz") = true) ∧
    ((args.cmd = "invert" ∨ args.cmd = "poly_erf") →
      (qspModels (CommandLine args eng).1).all (fun m => m = none) = true ∧
      (plotModels (CommandLine args eng).1).all (fun m => m = "Wx") = true) ∧
    (args.cmd = "angles" →
      qspModels (CommandLine args eng).1 = [] ∧
      (plotModels (CommandLine args eng).1).all (fun m => m = "Wx") = true) := by
  rw [commandLine_fst]
  refine ⟨?_, ?_, ?_, ?_⟩
  · intro h
    rcases hp : args.poly with _ | coefs
    · simp [CommandLineBody, h, hp, qspModels, plotModels]
    · by_cases hemp : coefs.isEmpty
      · simp [CommandLineBody, h, hp, hemp, qspModels, plotModels]
      · rcases hq : eng.QuantumSignalProcessingPhases coefs (some args.model) none
          with e | phis
        · simp [CommandLineBody, h, hp, hemp, hq, qspModels, plotModels]
        · by_cases hpl : args.plot <;>
            simp [CommandLineBody, h, hp, hemp, hq, hpl, qspModels, plotModels]
  · intro h
    by_cases hpl : args.plot <;>
      simp [CommandLineBody, h, hpl, qspModels, plotModels]
  · intro h
    rcases h with h | h
    · rcases hq : eng.QuantumSignalProcessingPhases
          (eng.PolyOneOverX args.kappa args.epsilon) none (some args.niter)
          with e | phis
      · simp [CommandLineBody, h, hq, qspModels, plotModels]
      · by_cases hpl : args.plot <;>
          simp [CommandLineBody, h, hq, hpl, qspModels, plotModels]
    · rcases hq : eng.QuantumSignalProcessingPhases
          (eng.PolyErf args.degree args.kappa) none (some args.niter)
          with e | phis
      · simp [CommandLineBody, h, hq, qspModels, plotModels]
      · by_cases hpl : args.plot <;>
          simp [CommandLineBody, h, hq, hpl, qspModels, plotModels]
  · intro h
    rcases hs : args.seqname with _ | s
    · simp [CommandLineBody, h, hs, falsyStr, qspModels, plotModels]
    · by_cases hse : s.isEmpty
      · simp [CommandLineBody, h, hs, falsyStr, hse, qspModels, plotModels]
      · by_cases hc : eng.phase_generators.contains s
        · have hmem : s ∈ eng.phase_generators := by simpa using hc
          by_cases hargs : falsyList args.seqargs
          · simp [CommandLineBody, h, hs, falsyStr, hse, hmem, hargs,
              qspModels, plotModels]
          · rcases hg : eng.generate s (args.seqargs.getD []) with e | phis
            · simp [CommandLineBody, h, hs, falsyStr, hse, hmem, hargs, hg,
                qspModels, plotModels]
            · by_cases hpl : args.plot <;>
                simp [CommandLineBody, h, hs, falsyStr, hse, hmem, hargs, hg,
                  hpl, qspModels, plotModels]
        · have hmem : s ∉ eng.phase_generators := by simpa using hc
          simp [CommandLineBody, h, hs, falsyStr, hse, hmem, qspModels,
            plotModels]

/-- Witness for the amended C2: each per-command conclusion, instantiated
at a concrete invocation of that command. -/
theorem c2_model_tags_witness :
    ((qspModels (CommandLine c2PolyArgs testEngine).1).all
        (fun m => m = some c2PolyArgs.model) = true ∧
      (plotModels (CommandLine c2PolyArgs testEngine).1).all
        (fun m => m = c2PolyArgs.model) = true) ∧
    (qspModels (CommandLine c2HamsimArgs testEngine).1 = [] ∧
      (plotModels (CommandLine c2HamsimArgs testEngine).1).all
        (fun m => m = "Wz") = true) ∧
    ((qspModels (CommandLine c2InvertArgs testEngine).1).all
        (fun m => m = none) = true ∧
      (plotModels (CommandLine c2InvertArgs testEngine).1).all
        (fun m => m = "Wx") = true) ∧
    (qspModels (CommandLine c2AnglesArgs testEngine).1 = [] ∧
      (plotModels (CommandLine c2AnglesArgs testEngine).1).all
        (fun m => m = "Wx") = true) :=
  ⟨(c2_model_tags c2PolyArgs testEngine).1 rfl,
   (c2_model_tags c2HamsimArgs testEngine).2.1 rfl,
   (c2_model_tags c2InvertArgs testEngine).2.2.1 (Or.inl rfl),
   (c2_model_tags c2AnglesArgs testEngine).2.2.2 rfl⟩

/-- Claim C3, counterexample: `pyqsp --poly=-1,0,2 --niter=7 poly2angles`
selects a retry budget of 7, yet the solver call in the trace has the
`max_nretries` keyword omitted — the claim's property `retriesRespected`
fails at this input. -/
theorem c3_counterexample :
    polyNiterArgs.niter = 7 ∧
      qspRetries (CommandLine polyNiterArgs testEngine).1 = [none] ∧
      retriesRespected polyNiterArgs testEngine = false := by
  decide

/-- Claim C3 as amended: `invert` and `poly_erf` pass `--niter` to the
angle solver as its `max_nretries` parameter; `poly2angles` invokes the
solver with `max_nretries` omitted, so the solver's default retry budget
applies regardless of `--niter`. -/
theorem c3_retry_budget (args : Args) (eng : Engine) :
    ((args.cmd = "invert" ∨ args.cmd = "poly_erf") →
      (qspRetries (CommandLine args eng).1).all
          (fun r => r = some args.niter) = true) ∧
    (args.cmd = "poly2angles" →
      (qspRetries (CommandLine args eng).1).all (fun r => r = none) = true) := by
  rw [commandLine_fst]
  constructor
  · intro h
    rcases h with h | h
    · rcases hq : eng.QuantumSignalProcessingPhases
          (eng.PolyOneOverX args.kappa args.epsilon) none (some args.niter)
          with e | phis
      · simp [CommandLineBody, h, hq, qspRetries]
      · by_cases hpl : args.plot <;>
          simp [CommandLineBody, h, hq, hpl, qspRetries]
    · rcases hq : eng.QuantumSignalProcessingPhases
          (eng.PolyErf args.degree args.kappa) none (some args.niter)
          with e | phis
      · simp [CommandLineBody, h, hq, qspRetries]
      · by_cases hpl : args.plot <;>
          simp [CommandLineBody, h, hq, hpl, qspRetries]
  · intro h
    rcases hp : args.poly with _ | coefs
    · simp [CommandLineBody, h, hp, qspRetries]
    · by_cases hemp : coefs.isEmpty
      · simp [CommandLineBody, h, hp, hemp, qspRetries]
      · rcases hq : eng.QuantumSignalProcessingPhases coefs (some args.model) none
          with e | phis
        · simp [CommandLineBody, h, hp, hemp, hq, qspRetries]
        · by_cases hpl : args.plot <;>
            simp [CommandLineBody, h, hp, hemp, hq, hpl, qspRetries]

/-- Witness for the amended C3: both conclusions, instantiated at concrete
`invert` and `poly2angles` invocations with `--niter=5`. -/
theorem c3_retry_budget_witness :
    (qspRetries (CommandLine c3InvertArgs testEngine).1).all
        (fun r => r = some c3InvertArgs.niter) = true ∧
      (qspRetries (CommandLine c3PolyArgs testEngine).1).all
        (fun r => r = none) = true :=
  ⟨(c3_retry_budget c3InvertArgs testEngine).1 (Or.inl rfl),
   (c3_retry_budget c3PolyArgs testEngine).2 rfl⟩

/-- Claim C4: an `angles` invocation with an unknown (or missing) sequence
name, or with no sequence arguments, returns normally with `None` — no
exception, no process exit, no `generate` call — after printing either the
known generator names or the generator's help. -/
theorem c4_angles_bad_input_returns (args : Args) (eng : Engine)
    (h1 : args.cmd = "angles")
    (h2 : seqnameUnknown args eng ∨ falsyList args.seqargs = true) :
    (CommandLine args eng).2 = PyResult.ret none ∧
      ((CommandLine args eng).1 = [Event.printKnownGenerators eng.phase_generators] ∨
       (CommandLine args eng).1 =
         [Event.printGenHelp (eng.gen_help (args.seqname.getD ""))]) := by
  rcases hs : args.seqname with _ | s
  · refine ⟨?_, Or.inl ?_⟩ <;> simp [CommandLine, CommandLineBody, h1, hs, falsyStr]
  · by_cases hse : s.isEmpty
    · refine ⟨?_, Or.inl ?_⟩ <;>
        simp [CommandLine, CommandLineBody, h1, hs, falsyStr, hse]
    · by_cases hc : eng.phase_generators.contains s
      · have hmem : s ∈ eng.phase_generators := by simpa using hc
        have hargs : falsyList args.seqargs = true := by
          rcases h2 with hu | hl
          · have hnot := hu s hs
            simp at hnot
            exact absurd hmem hnot
          · exact hl
        refine ⟨?_, Or.inr ?_⟩ <;>
          simp [CommandLine, CommandLineBody, h1, hs, falsyStr, hse, hmem, hargs]
      · have hmem : s ∉ eng.phase_generators := by simpa using hc
        refine ⟨?_, Or.inl ?_⟩ <;>
          simp [CommandLine, CommandLineBody, h1, hs, falsyStr, hse, hmem]

/-- Witness for C4: `pyqsp --seqname fpsearch angles` with no `--seqargs`
prints the generator's help and returns `None`. -/
theorem c4_angles_bad_input_returns_witness :
    (CommandLine anglesHelpArgs testEngine).2 = PyResult.ret none ∧
      ((CommandLine anglesHelpArgs testEngine).1 =
          [Event.printKnownGenerators testEngine.phase_generators] ∨
       (CommandLine anglesHelpArgs testEngine).1 =
          [Event.printGenHelp
            (testEngine.gen_help (anglesHelpArgs.seqname.getD ""))]) :=
  c4_angles_bad_input_returns anglesHelpArgs testEngine rfl (Or.inr rfl)

/-- Claim C5: the inversion approximation builder never emits a polynomial
whose sampled magnitude exceeds 1: at every sample point the returned
(rescaled) polynomial has magnitude at most 1. -/
theorem c5_inversion_bounded (rawApprox : ℚ → ℚ → List ℚ) (samples : List ℚ)
    (kappa epsilon : ℚ) (a : ℚ) (ha : a ∈ samples) :
    |evalPoly (PolyOneOverXModel rawApprox samples kappa epsilon) a| ≤ 1 := by
  have hb := abs_evalPoly_le_sampleMax samples (rawApprox kappa epsilon) a ha
  simp only [PolyOneOverXModel, ensureBounded]
  by_cases hm : sampleMax samples (rawApprox kappa epsilon) ≤ 1
  · rw [if_pos hm]
    exact le_trans hb hm
  · rw [if_neg hm]
    push_neg at hm
    have hm0 : (0 : ℚ) < sampleMax samples (rawApprox kappa epsilon) :=
      lt_trans one_pos hm
    rw [evalPoly_map_div, abs_div, abs_of_pos hm0, div_le_one hm0]
    exact hb

/-- Witness for C5: a raw approximation of magnitude 5 on the samples,
built for `kappa = 3`, `epsilon = 3/10`, is rescaled so that its magnitude
at the sample point 1/2 is at most 1. -/
theorem c5_inversion_bounded_witness :
    ((1 : ℚ)/2) ∈ ([0, 1/2, 1] : List ℚ) ∧
      |evalPoly (PolyOneOverXModel rawFive [0, 1/2, 1] 3 (3/10)) (1/2)| ≤ 1 :=
  ⟨by norm_num,
   c5_inversion_bounded rawFive [0, 1/2, 1] 3 (3/10) (1/2) (by norm_num)⟩

/-- Degree-down solving produces exactly one angle per fuel unit when the
reduction step shrinks the coefficient list by exactly one. -/
lemma c6_length_aux (step : List ℚ → ℚ) (reduceStep : List ℚ → List ℚ)
    (hred : ∀ c : List ℚ, 2 ≤ c.length → (reduceStep c).length + 1 = c.length) :
    ∀ n coeffs, coeffs.length = n →
      (degreeDownAux step reduceStep n coeffs).length = n := by
  intro n
  induction n with
  | zero =>
    intro c h
    simp [degreeDownAux]
  | succ m ih =>
    intro c h
    match c with
    | [] => simp at h
    | [c0] =>
      simp only [List.length_singleton] at h
      have hm : m = 0 := by omega
      subst hm
      simp [degreeDownAux]
    | c0 :: c1 :: rest =>
      have h2 : 2 ≤ (c0 :: c1 :: rest).length := by
        simp
      have hr := hred (c0 :: c1 :: rest) h2
      simp only [degreeDownAux, List.length_cons]
      rw [ih (reduceStep (c0 :: c1 :: rest)) (by omega)]

/-- Claim C6: for a polynomial of degree `d` (a coefficient list of length
`d + 1`), degree-down solving produces a phase sequence of length exactly
`d + 1`, given that each unwinding step reduces the degree by one. -/
theorem c6_phase_length (step : List ℚ → ℚ) (reduceStep : List ℚ → List ℚ)
    (coeffs : List ℚ) (d : Nat)
    (hred : ∀ c : List ℚ, 2 ≤ c.length → (reduceStep c).length + 1 = c.length)
    (hdeg : coeffs.length = d + 1) :
    (degreeDownSolve step reduceStep coeffs).length = d + 1 := by
  unfold degreeDownSolve
  rw [hdeg]
  exact c6_length_aux step reduceStep hred (d + 1) coeffs hdeg

/-- Witness for C6: a degree-2 coefficient list solved with `List.tail` as
the (length-correct) reduction yields 3 phase angles. -/
theorem c6_phase_length_witness :
    ([0, 0, 0] : List ℚ).length = 2 + 1 ∧
      (degreeDownSolve (fun c => c.headD 0) List.tail [0, 0, 0]).length = 2 + 1 :=
  ⟨by decide,
   c6_phase_length (fun c => c.headD 0) List.tail [0, 0, 0] 2
     (fun c h => by
       cases c with
       | nil => simp at h
       | cons x t => simp)
     (by decide)⟩

/-- Claim C7: a named generator invoked with a number of arguments
different from its required arity fails with `ArgumentError` and produces
no phase sequence. -/
theorem c7_generator_arity (g : PhaseGenerator) (args : List ℚ)
    (h : args.length ≠ g.arity) :
    generateChecked g args = Except.error "ArgumentError" := by
  unfold generateChecked
  rw [if_neg h]

/-- Witness for C7: a generator of arity 2 invoked with one argument fails
with `ArgumentError`. -/
theorem c7_generator_arity_witness :
    ([(1 : ℚ)].length ≠ genTwo.arity) ∧
      generateChecked genTwo [1] = Except.error "ArgumentError" :=
  ⟨by decide, c7_generator_arity genTwo [1] (by decide)⟩

/-- Claim C8: any invocation whose command is none of the five handled
ones — including `poly_sign`, advertised by the help text — raises
`NameError` in the fallback branch (which references the undefined name
`cmd`), printing nothing: the help text is never reached. -/
theorem c8_unknown_cmd_raises (args : Args) (eng : Engine)
    (h : args.cmd ∉
      (["poly2angles", "hamsim", "invert", "poly_erf", "angles"] : List String)) :
    CommandLine args eng = ([], PyResult.raised "NameError") := by
  simp only [List.mem_cons, List.not_mem_nil, or_false, not_or] at h
  obtain ⟨h1, h2, h3, h4, h5⟩ := h
  simp [CommandLine, CommandLineBody, h1, h2, h3, h4, h5]

/-- Witness for C8: `pyqsp poly_sign` raises `NameError` with an empty
trace. -/
theorem c8_unknown_cmd_raises_witness :
    CommandLine polySignArgs testEngine = ([], PyResult.raised "NameError") :=
  c8_unknown_cmd_raises polySignArgs testEngine (by decide)

/-- Claim C9: `poly2angles` with no (or an empty) `--poly` list prints the
must-specify message and terminates the process via `sys.exit(0)` — exit
status 0 — instead of returning a failure value. -/
theorem c9_missing_poly_exits (args : Args) (eng : Engine)
    (h1 : args.cmd = "poly2angles") (h2 : falsyList args.poly = true) :
    CommandLine args eng = ([Event.printMustSpecifyPoly], PyResult.exited 0) := by
  rcases hp : args.poly with _ | l
  · simp [CommandLine, CommandLineBody, h1, hp]
  · have hl : l.isEmpty = true := by simpa [falsyList, hp] using h2
    simp [CommandLine, CommandLineBody, h1, hp, hl]

/-- Witness for C9: `pyqsp poly2angles` with `--poly` absent exits with
status 0 after printing the message. -/
theorem c9_missing_poly_exits_witness :
    CommandLine polyMissingArgs testEngine =
      ([Event.printMustSpecifyPoly], PyResult.exited 0) :=
  c9_missing_poly_exits polyMissingArgs testEngine rfl rfl

/-- Claim C10: `CommandLine` returns a phase sequence to its caller
exactly when `--return-angles` is set and the dispatch body reached the
final return with a produced phase sequence; whenever the flag is unset —
including after a successful solve — any normal return delivers `None`. -/
theorem c10_return_iff (args : Args) (eng : Engine) :
    (∀ phis, (CommandLine args eng).2 = PyResult.ret (some phis) ↔
        (args.return_angles = true ∧
          (CommandLineBody args eng).2 = BodyExit.fall (some phis))) ∧
    (args.return_angles = false →
      ∀ v, (CommandLine args eng).2 = PyResult.ret v → v = none) := by
  rcases hb : (CommandLineBody args eng).2 with p | _ | c | e
  · rcases p with _ | q
    · constructor
      · intro phis
        simp [CommandLine, hb]
      · intro hra v hv
        simp [CommandLine, hb] at hv
        exact hv.symm
    · by_cases hra : args.return_angles
      · constructor
        · intro phis
          simp [CommandLine, hb, hra, eq_comm]
        · intro hra' v hv
          rw [hra'] at hra
          exact absurd hra (by simp)
      · constructor
        · intro phis
          simp [CommandLine, hb, hra]
        · intro _ v hv
          simp [CommandLine, hb, hra] at hv
          exact hv.symm
  · constructor
    · intro phis
      simp [CommandLine, hb]
    · intro _ v hv
      simp [CommandLine, hb] at hv
      exact hv.symm
  · constructor
    · intro phis
      simp [CommandLine, hb]
    · intro _ v hv
      simp [CommandLine, hb] at hv
  · constructor
    · intro phis
      simp [CommandLine, hb]
    · intro _ v hv
      simp [CommandLine, hb] at hv

/-- Witness for C10: a successful `poly2angles` solve with
`--return-angles` set returns the produced phase sequence. -/
theorem c10_return_iff_witness :
    (CommandLine returnAnglesArgs testEngine).2 =
      PyResult.ret (some [-1, 0, 2]) :=
  ((c10_return_iff returnAnglesArgs testEngine).1 [-1, 0, 2]).mpr
    ⟨rfl, by decide⟩

end Pyqsp
